import Mathlib

/-!
Shallow embedding of the FreshLogger logging core (src/Logger.hpp) and of the
pipeline components it delegates to, for checking the natural-language
specification against the code.

The program is a header-only facade over the spdlog library.  The facade's own
logic (sink assembly, filesystem probe with fallback, configuration storage,
level changes, the six level methods) is translated directly from
src/Logger.hpp.  Filesystem outcomes (directory creation, marker-file write,
file-sink open) are abstracted as boolean oracles: the embedding takes the
outcome of each operation as input, and the branching on those outcomes follows
the source's try/catch structure exactly.  Behaviour that lives inside the
spdlog dependency (the per-sink level gate, the async queue, size-based file
rotation) is embedded from its documented semantics where the source configures
it, and modelled from the specification where the spec describes a whole
component that has no code under src/.
-/

namespace FreshLogger

/-- The six log levels of the facade, Logger.hpp lines 76-83
(`enum class LogLevel`), with their declared underlying values 0..5. -/
inductive LogLevel where
  | TRACE
  | DEBUG
  | INFO
  | WARNING
  | ERROR
  | FATAL
  deriving DecidableEq, Repr

/-- Underlying integer value of each enumerator, as declared in the source
(TRACE = 0, DEBUG = 1, INFO = 2, WARNING = 3, ERROR = 4, FATAL = 5). -/
def LogLevel.toNat : LogLevel → Nat
  | .TRACE => 0
  | .DEBUG => 1
  | .INFO => 2
  | .WARNING => 3
  | .ERROR => 4
  | .FATAL => 5

/-- The spdlog severity levels (spdlog/common.h): trace = 0, debug = 1,
info = 2, warn = 3, err = 4, critical = 5, off = 6. -/
inductive SpdLevel where
  | trace
  | debug
  | info
  | warn
  | err
  | critical
  | off
  deriving DecidableEq, Repr

/-- Ordinal of an spdlog level. -/
def SpdLevel.toNat : SpdLevel → Nat
  | .trace => 0
  | .debug => 1
  | .info => 2
  | .warn => 3
  | .err => 4
  | .critical => 5
  | .off => 6

/-- Logger.hpp lines 331-341: `convertLevel`, the switch mapping the facade's
LogLevel to spdlog's level enum.  The switch covers all six enumerators; its
`default` branch is modelled separately by `convertLevelRaw` below, since in
C++ an out-of-range value can be forced into the enum. -/
def convertLevel : LogLevel → SpdLevel
  | .TRACE => .trace
  | .DEBUG => .debug
  | .INFO => .info
  | .WARNING => .warn
  | .ERROR => .err
  | .FATAL => .critical

/-- The same switch (Logger.hpp lines 331-341) viewed on the raw underlying
integer of the enum, as C++ evaluates it: each of the six declared values maps
to its spdlog counterpart and every other value falls into the `default`
branch, which returns `spdlog::level::info`. -/
def convertLevelRaw (v : Nat) : SpdLevel :=
  if v = 0 then .trace
  else if v = 1 then .debug
  else if v = 2 then .info
  else if v = 3 then .warn
  else if v = 4 then .err
  else if v = 5 then .critical
  else .info

/-- Constants from Logger.hpp lines 35-42 (`namespace LoggerConstants`). -/
def DEFAULT_MAX_FILE_SIZE : Nat := 10 * 1024 * 1024

/-- LoggerConstants::DEFAULT_MAX_FILES (Logger.hpp line 37). -/
def DEFAULT_MAX_FILES : Nat := 5

/-- LoggerConstants::DEFAULT_QUEUE_SIZE (Logger.hpp line 38). -/
def DEFAULT_QUEUE_SIZE : Nat := 8192

/-- LoggerConstants::DEFAULT_FLUSH_INTERVAL (Logger.hpp line 39). -/
def DEFAULT_FLUSH_INTERVAL : Nat := 3

/-- Logger.hpp lines 88-110: `struct Config`.  Sizes are size_t and maxFiles
is a non-negative int in every use, so all are modelled as Nat. -/
structure Config where
  logFilePath : String
  minLevel : LogLevel
  consoleOutput : Bool
  asyncLogging : Bool
  maxFileSize : Nat
  maxFiles : Nat
  pattern : String
  queueSize : Nat
  flushInterval : Nat
  deriving DecidableEq, Repr

/-- The default constructor of Config (Logger.hpp lines 100-109). -/
def defaultConfig : Config :=
  { logFilePath := ""
    minLevel := .INFO
    consoleOutput := true
    asyncLogging := false
    maxFileSize := DEFAULT_MAX_FILE_SIZE
    maxFiles := DEFAULT_MAX_FILES
    pattern := "[%Y-%m-%d %H:%M:%S.%e] [%l] [%t] %v"
    queueSize := DEFAULT_QUEUE_SIZE
    flushInterval := DEFAULT_FLUSH_INTERVAL }

/-- The kind of a concrete spdlog sink built by setupLogger: a
stdout_color_sink_mt, or a rotating_file_sink_mt bound to a path, size
threshold and retention count (Logger.hpp lines 209, 262-266). -/
inductive SinkKind where
  | console
  | rotatingFile (path : String) (maxSize : Nat) (maxFiles : Nat)
  deriving DecidableEq, Repr

/-- An spdlog sink: every spdlog sink holds its own severity threshold
(`sink::set_level` / `sink::should_log`), set by setupLogger via
`set_level(convertLevel(config.minLevel))` on each sink it creates. -/
structure Sink where
  kind : SinkKind
  level : SpdLevel
  deriving DecidableEq, Repr

/-- A console sink at the given minimum level, as built at Logger.hpp lines
209-210, 253-254, 278-279 and 287-288. -/
def consoleSink (minLevel : LogLevel) : Sink :=
  ⟨.console, convertLevel minLevel⟩

/-- The spdlog logger object `m_logger` points to: its sink vector, its own
severity threshold (distinct from the sinks' thresholds), its pattern, and
whether it is an async_logger (Logger.hpp lines 302-327). -/
structure SpdLogger where
  sinks : List Sink
  level : SpdLevel
  pattern : String
  isAsync : Bool
  deriving DecidableEq, Repr

/-- Outcomes of the filesystem operations setupLogger performs, abstracted as
oracles over the configured log-file path.  `hasParent p` is whether
`std::filesystem::path(p).parent_path()` is nonempty; `createDirOk p` is
whether the parent directory already exists or `create_directories` returned
without throwing; `markerOk p` is whether the `.test_write_permissions` marker
file could be opened and written in the parent directory; `sinkOpenOk p` is
whether the rotating_file_sink_mt constructor returned without throwing. -/
structure FsEnv where
  hasParent : String → Bool
  createDirOk : String → Bool
  markerOk : String → Bool
  sinkOpenOk : String → Bool

/-- Result of one run of setupLogger: `assigned = some l` when the run reached
one of the two `m_logger = ...` assignments (Logger.hpp lines 314, 327) and
built logger l; `assigned = none` when the run left setupLogger through the
early `return` at line 257 without touching m_logger.  `pool` is the state of
the process-wide async thread pool after the run: `some c` means the pool is
initialized with queue capacity c, `none` means not yet initialized
(the function-local `static bool thread_pool_initialized`, lines 295-299). -/
structure SetupResult where
  assigned : Option SpdLogger
  pool : Option Nat
  deriving DecidableEq, Repr

/-- Creation of the spdlog logger from the final sink vector, Logger.hpp lines
292-328.  In the async branch the thread pool is initialized with
`config.queueSize` only if it was never initialized before in the process;
otherwise the existing pool (and its capacity) is reused unchanged. -/
def mkFinal (config : Config) (pool : Option Nat) (sinks : List Sink) : SetupResult :=
  if config.asyncLogging then
    let pool2 := match pool with
      | none => some config.queueSize
      | some c => some c
    ⟨some ⟨sinks, convertLevel config.minLevel, config.pattern, true⟩, pool2⟩
  else
    ⟨some ⟨sinks, convertLevel config.minLevel, config.pattern, false⟩, pool⟩

/-- Logger.hpp lines 252-256 and 277-281: inside a catch block, add a console
sink only when the sink vector is still empty. -/
def fallbackConsole (config : Config) (sinks : List Sink) : List Sink :=
  if sinks.isEmpty then [consoleSink config.minLevel] else sinks

/-- Logger.hpp lines 204-329: `setupLogger`.  Control flow translated branch
for branch:
1. console sink added when config.consoleOutput (lines 207-212);
2. when logFilePath is nonempty, the file-sink block runs (lines 214-283):
   - if the parent directory is nonempty and create_directories throws, the
     outer catch (lines 273-282) adds a console fallback when the vector is
     empty and execution continues to step 3;
   - otherwise, if the parent directory is nonempty and the marker-file write
     fails, the inner catch (lines 248-258) adds a console fallback to the
     local vector and then returns from setupLogger: m_logger is NOT assigned
     and the locally built vector is discarded;
   - otherwise, if the rotating_file_sink constructor throws, the outer catch
     adds a console fallback when the vector is empty and continues;
   - otherwise the file sink is appended (lines 262-269);
3. lines 285-290 add a console sink when the vector is still empty;
4. lines 292-328 build the sync or async spdlog logger from the vector. -/
def setupLogger (env : FsEnv) (pool : Option Nat) (config : Config) : SetupResult :=
  let sinks0 : List Sink :=
    if config.consoleOutput then [consoleSink config.minLevel] else []
  if config.logFilePath = "" then
    mkFinal config pool (fallbackConsole config sinks0)
  else if env.hasParent config.logFilePath && !env.createDirOk config.logFilePath then
    mkFinal config pool (fallbackConsole config (fallbackConsole config sinks0))
  else if env.hasParent config.logFilePath && !env.markerOk config.logFilePath then
    ⟨none, pool⟩
  else if !env.sinkOpenOk config.logFilePath then
    mkFinal config pool (fallbackConsole config (fallbackConsole config sinks0))
  else
    mkFinal config pool (fallbackConsole config (sinks0 ++
      [⟨.rotatingFile config.logFilePath config.maxFileSize config.maxFiles,
        convertLevel config.minLevel⟩]))

/-- The mutable state of one Logger object: `m_logger` (null when no pipeline
was ever assigned) and `m_config` (Logger.hpp lines 345-346). -/
structure LoggerState where
  m_logger : Option SpdLogger
  m_config : Config
  deriving DecidableEq, Repr

/-- The Logger constructor (Logger.hpp lines 116-118): m_config is initialized
to the given config, m_logger starts null, and setupLogger runs; if setupLogger
leaves through its early return, m_logger stays null.  Returns the new object's
state together with the process thread-pool state after construction. -/
def construct (env : FsEnv) (pool : Option Nat) (config : Config) :
    LoggerState × Option Nat :=
  let r := setupLogger env pool config
  (⟨r.assigned, config⟩, r.pool)

/-- Logger::setConfig (Logger.hpp lines 181-184): `m_config = config;` then
`setupLogger(config);`.  When setupLogger leaves through its early return the
existing m_logger is kept; otherwise it is overwritten with the new logger. -/
def setConfig (env : FsEnv) (pool : Option Nat) (st : LoggerState) (config : Config) :
    LoggerState × Option Nat :=
  let r := setupLogger env pool config
  (⟨match r.assigned with
    | some l => some l
    | none => st.m_logger, config⟩, r.pool)

/-- Logger::setLogLevel (Logger.hpp lines 170-175): when m_logger is non-null,
`m_logger->set_level(convertLevel(level))` and `m_config.minLevel = level`.
spdlog's `logger::set_level` sets the logger object's own threshold only; the
thresholds stored in the individual sinks are not modified. -/
def setLogLevel (st : LoggerState) (level : LogLevel) : LoggerState :=
  match st.m_logger with
  | none => st
  | some lg =>
    ⟨some { lg with level := convertLevel level },
     { st.m_config with minLevel := level }⟩

/-- spdlog pattern expansion abstracted: a formatted record is the message text
followed by the newline the formatter appends, so it is never empty.  The
timestamp/level/thread tokens of the pattern are runtime data and are not
modelled; only the byte count being positive matters to the claims. -/
def formatRecord (msg : String) : String := msg ++ "\n"

/-- spdlog sink gate (sink::should_log): a sink accepts a record exactly when
the record's level is at or above the sink's own stored threshold. -/
def Sink.shouldLog (s : Sink) (msgLevel : SpdLevel) : Bool :=
  s.level.toNat ≤ msgLevel.toNat

/-- Bytes a sink writes for one record at the sink-dispatch step
(spdlog logger::sink_it_ : `if (sink->should_log(lvl)) sink->log(msg)`):
the formatted record when the sink's gate passes, nothing otherwise. -/
def Sink.writeBytes (s : Sink) (msgLevel : SpdLevel) (formatted : String) : String :=
  if s.shouldLog msgLevel then formatted else ""

/-- spdlog logger gate (logger::should_log): the logger object's own threshold,
checked before any sink is consulted. -/
def SpdLogger.shouldLog (lg : SpdLogger) (msgLevel : SpdLevel) : Bool :=
  lg.level.toNat ≤ msgLevel.toNat

/-- One spdlog log call on a built logger: the logger-level gate first, then
each sink's own gate; returns the bytes written per sink, in sink order. -/
def SpdLogger.log (lg : SpdLogger) (msgLevel : SpdLevel) (msg : String) : List String :=
  if lg.shouldLog msgLevel then
    lg.sinks.map (fun s => s.writeBytes msgLevel (formatRecord msg))
  else
    lg.sinks.map (fun _ => "")

/-- A facade-level log call at a given severity (the shared shape of the six
level methods, Logger.hpp lines 130-164): when m_logger is null the call does
nothing; otherwise the message is handed to the spdlog logger.  Logging never
changes the facade's own state. -/
def logCall (st : LoggerState) (msgLevel : SpdLevel) (msg : String) : List String :=
  match st.m_logger with
  | none => []
  | some lg => lg.log msgLevel msg

/-- A raw sink write that can fail: `fault s` abstracts the sink's underlying
I/O throwing (file error, stream error).  This is the throwing operation that
spdlog's logger wraps in its catch. -/
def Sink.tryWrite (fault : Sink → Bool) (s : Sink) (msgLevel : SpdLevel)
    (formatted : String) : Except String String :=
  if fault s then .error "sink write failure" else .ok (s.writeBytes msgLevel formatted)

/-- spdlog logger::log with its catch-all: each sink exception is caught and
routed to the logger's error handler — installed in Logger.hpp lines 50-53 as
a handler that swallows everything — so the call always returns normally; a
faulting sink simply writes nothing for that record. -/
def SpdLogger.logCaught (fault : Sink → Bool) (lg : SpdLogger) (msgLevel : SpdLevel)
    (msg : String) : List String :=
  if lg.shouldLog msgLevel then
    lg.sinks.map (fun s =>
      match s.tryWrite fault msgLevel (formatRecord msg) with
      | .ok out => out
      | .error _ => "")
  else
    lg.sinks.map (fun _ => "")

/-- One of the six level methods (Logger.hpp lines 130-164) as a fallible
computation: the Except layer records whether an exception escapes to the
caller.  The null-guard branch returns without touching anything; the non-null
branch delegates to the spdlog call whose exceptions are caught internally. -/
def levelCall (fault : Sink → Bool) (st : LoggerState) (msgLevel : SpdLevel)
    (msg : String) : Except String (LoggerState × List String) :=
  match st.m_logger with
  | none => .ok (st, [])
  | some lg => .ok (st, lg.logCaught fault msgLevel msg)

/-- Logger::info (lines 130-134): logs at spdlog level info. -/
def info (fault : Sink → Bool) (st : LoggerState) (msg : String) :
    Except String (LoggerState × List String) := levelCall fault st .info msg

/-- Logger::warning (lines 136-140): delegates to spdlog warn. -/
def warning (fault : Sink → Bool) (st : LoggerState) (msg : String) :
    Except String (LoggerState × List String) := levelCall fault st .warn msg

/-- Logger::error (lines 142-146): delegates to spdlog err. -/
def error (fault : Sink → Bool) (st : LoggerState) (msg : String) :
    Except String (LoggerState × List String) := levelCall fault st .err msg

/-- Logger::debug (lines 148-152): delegates to spdlog debug. -/
def debug (fault : Sink → Bool) (st : LoggerState) (msg : String) :
    Except String (LoggerState × List String) := levelCall fault st .debug msg

/-- Logger::trace (lines 154-158): delegates to spdlog trace. -/
def trace (fault : Sink → Bool) (st : LoggerState) (msg : String) :
    Except String (LoggerState × List String) := levelCall fault st .trace msg

/-- Logger::fatal (lines 160-164): delegates to spdlog critical. -/
def fatal (fault : Sink → Bool) (st : LoggerState) (msg : String) :
    Except String (LoggerState × List String) := levelCall fault st .critical msg

/-- Total bytes across the per-sink outputs of one call. -/
def outputBytes (outs : List String) : Nat := (outs.map String.length).sum

/-- Pipeline-lifecycle actions a configuration change could perform. -/
inductive PipelineEvent where
  | flushOld
  | stopWorker
  | storeConfig
  | rebuild
  deriving DecidableEq, Repr

/-- Logger::setConfig (Logger.hpp lines 181-184) as the sequence of
pipeline-lifecycle actions its body performs.  The body is exactly
`m_config = config;` followed by `setupLogger(config);` — it contains no call
to m_logger->flush(), no drain, and no worker stop, for any input. -/
def setConfigEvents : List PipelineEvent := [.storeConfig, .rebuild]

/-- setConfig together with the lifecycle actions it performs. -/
def setConfigTraced (env : FsEnv) (pool : Option Nat) (st : LoggerState)
    (config : Config) : (LoggerState × Option Nat) × List PipelineEvent :=
  (setConfig env pool st config, setConfigEvents)

/-- Modelled from the spec: the AsyncDispatcher of section 4.4 is implemented
inside the spdlog dependency (thread pool, mpmc queue), none of which is under
src/.  State: a bounded FIFO queue of pending records and the sequence of
records already committed to the sinks, in commit order. -/
structure AsyncDispatcher where
  capacity : Nat
  queue : List String
  committed : List String
  deriving DecidableEq, Repr

/-- Modelled from the spec: enqueue under the block overflow policy — the
record enters the queue when there is room; `none` means the producer blocks
(no record is dropped). -/
def AsyncDispatcher.enqueue (d : AsyncDispatcher) (r : String) : Option AsyncDispatcher :=
  if d.queue.length < d.capacity then some { d with queue := d.queue ++ [r] } else none

/-- Worker loop committing pending records FIFO into the committed sequence,
one at a time, until none remain. -/
def commitAll (pending committed : List String) : List String :=
  match pending with
  | [] => committed
  | r :: rest => commitAll rest (committed ++ [r])

/-- Modelled from the spec: flush blocks until the queue is empty and the sink
writer has committed every drained record, so the state it returns has an
empty queue and all previously pending records committed in FIFO order. -/
def AsyncDispatcher.flush (d : AsyncDispatcher) : AsyncDispatcher :=
  ⟨d.capacity, [], commitAll d.queue d.committed⟩

/-- Modelled from the spec: the RotatingFileWriter of section 4.3 lives inside
spdlog's rotating_file_sink, which is not under src/.  The active file and each
backup are modelled as the list of their records' byte sizes (oldest first);
backups is the chain base.1 .. base.N, youngest first. -/
structure RotWriter where
  maxFileSize : Nat
  maxFiles : Nat
  active : List Nat
  backups : List (List Nat)
  deriving DecidableEq, Repr

/-- Running size counter of the active file. -/
def RotWriter.activeSize (w : RotWriter) : Nat := w.active.sum

/-- Modelled from the spec: rotation shifts the backup chain (base.k becomes
base.k+1, anything beyond maxFiles is dropped), the active file becomes base.1,
and a fresh active file is opened with size counter 0. -/
def RotWriter.rotate (w : RotWriter) : RotWriter :=
  { w with active := [], backups := List.take w.maxFiles (w.active :: w.backups) }

/-- Modelled from the spec: append checks rotation before the write — if the
current size plus the record size would exceed maxFileSize, rotate first —
then writes the record and updates the size counter; rotation never happens
mid-write. -/
def RotWriter.append (w : RotWriter) (recSize : Nat) : RotWriter :=
  if w.maxFileSize < w.activeSize + recSize then
    let w2 := w.rotate
    { w2 with active := [recSize] }
  else
    { w with active := w.active ++ [recSize] }

/-- A sequence of appends, oldest record first. -/
def RotWriter.appendAll (w : RotWriter) (recs : List Nat) : RotWriter :=
  recs.foldl RotWriter.append w

/-- A writer on a freshly opened empty file with an empty backup chain. -/
def freshWriter (maxFileSize maxFiles : Nat) : RotWriter :=
  ⟨maxFileSize, maxFiles, [], []⟩

/-- The on-disk invariant claimed for the rotation chain: at most maxFiles
backups exist, and the active file either respects maxFileSize or holds a
single record (so its size exceeds the threshold by at most that one record,
which no rotation could have split). -/
def RotWriter.chainInv (w : RotWriter) : Prop :=
  w.backups.length ≤ w.maxFiles ∧
    (w.activeSize ≤ w.maxFileSize ∨ w.active.length ≤ 1)

instance (w : RotWriter) : Decidable w.chainInv := by
  unfold RotWriter.chainInv; infer_instance

/-! Shared lemmas about the embedded definitions. -/

/-- convertLevel is an order embedding of the six facade levels into the
spdlog levels: the fixed order TRACE < DEBUG < INFO < WARNING < ERROR < FATAL
is preserved and reflected by the switch. -/
theorem convertLevel_le_iff (a b : LogLevel) :
    (convertLevel a).toNat ≤ (convertLevel b).toNat ↔ a.toNat ≤ b.toNat := by
  cases a <;> cases b <;> decide

/-- The console sink added when the vector is empty makes the initial vector
collapse to exactly one console sink at the configured minimum level. -/
theorem fallback_init (config : Config) :
    fallbackConsole config
        (if config.consoleOutput then [consoleSink config.minLevel] else []) =
      [consoleSink config.minLevel] := by
  cases hc : config.consoleOutput <;> simp [fallbackConsole, hc]

/-- fallbackConsole is the identity on a nonempty vector. -/
theorem fallbackConsole_ne_nil (config : Config) (sinks : List Sink)
    (h : sinks ≠ []) : fallbackConsole config sinks = sinks := by
  simp [fallbackConsole, List.isEmpty_iff, h]

/-- Every sink of the initial vector carries the configured minimum level. -/
theorem initSinks_level (config : Config) (s : Sink)
    (h : s ∈ (if config.consoleOutput then [consoleSink config.minLevel] else [])) :
    s.level = convertLevel config.minLevel := by
  cases hc : config.consoleOutput <;> simp [hc] at h
  simp [h, consoleSink]

/-- mkFinal always assigns a logger built from exactly the given sink vector,
at the configured minimum level and pattern, async iff configured. -/
theorem mkFinal_assigned (config : Config) (pool : Option Nat) (sinks : List Sink) :
    (mkFinal config pool sinks).assigned =
      some ⟨sinks, convertLevel config.minLevel, config.pattern, config.asyncLogging⟩ := by
  cases hb : config.asyncLogging <;> simp [mkFinal, hb]

/-- When the process thread pool is already initialized, mkFinal never changes
its capacity. -/
theorem mkFinal_pool_some (config : Config) (c : Nat) (sinks : List Sink) :
    (mkFinal config (some c) sinks).pool = some c := by
  cases hb : config.asyncLogging <;> simp [mkFinal, hb]

/-- When the thread pool is uninitialized and async logging is requested,
mkFinal initializes it with the configured queueSize, verbatim. -/
theorem mkFinal_pool_async (config : Config) (sinks : List Sink)
    (h : config.asyncLogging = true) :
    (mkFinal config none sinks).pool = some config.queueSize := by
  simp [mkFinal, h]

/-- Every run of setupLogger either leaves through the early return of the
marker-probe catch (m_logger untouched, pool untouched) or reaches logger
creation with a nonempty sink vector whose sinks all carry the configured
minimum level. -/
theorem setupLogger_cases (env : FsEnv) (pool : Option Nat) (config : Config) :
    setupLogger env pool config = ⟨none, pool⟩ ∨
    ∃ sinks, sinks ≠ [] ∧ (∀ s ∈ sinks, s.level = convertLevel config.minLevel) ∧
      setupLogger env pool config = mkFinal config pool sinks := by
  have hone : ∀ s ∈ [consoleSink config.minLevel], s.level = convertLevel config.minLevel := by
    intro s hs; simp at hs; simp [hs, consoleSink]
  have hdouble : fallbackConsole config (fallbackConsole config
      (if config.consoleOutput then [consoleSink config.minLevel] else [])) =
      [consoleSink config.minLevel] := by
    rw [fallback_init]; exact fallbackConsole_ne_nil config _ (by simp)
  have hfile : fallbackConsole config
      ((if config.consoleOutput then [consoleSink config.minLevel] else []) ++
        [⟨.rotatingFile config.logFilePath config.maxFileSize config.maxFiles,
          convertLevel config.minLevel⟩]) =
      (if config.consoleOutput then [consoleSink config.minLevel] else []) ++
        [⟨.rotatingFile config.logFilePath config.maxFileSize config.maxFiles,
          convertLevel config.minLevel⟩] :=
    fallbackConsole_ne_nil config _ (by simp)
  simp only [setupLogger]
  split
  · right
    refine ⟨_, ?_, ?_, rfl⟩
    · rw [fallback_init]; simp
    · rw [fallback_init]; exact hone
  · split
    · right
      refine ⟨_, ?_, ?_, rfl⟩
      · rw [hdouble]; simp
      · rw [hdouble]; exact hone
    · split
      · left; rfl
      · split
        · right
          refine ⟨_, ?_, ?_, rfl⟩
          · rw [hdouble]; simp
          · rw [hdouble]; exact hone
        · right
          refine ⟨_, ?_, ?_, rfl⟩
          · rw [hfile]; simp
          · rw [hfile]
            intro s hs
            rcases List.mem_append.1 hs with h | h
            · exact initSinks_level config s h
            · simp at h; simp [h]

/-- Whenever setupLogger does assign m_logger, the built logger carries the
configured minimum level as its own threshold, a nonempty sink vector, and
every sink's threshold is also the configured minimum level. -/
theorem setupLogger_assigned_shape (env : FsEnv) (pool : Option Nat) (config : Config)
    (lg : SpdLogger) (h : (setupLogger env pool config).assigned = some lg) :
    lg.level = convertLevel config.minLevel ∧ lg.sinks ≠ [] ∧
    ∀ s ∈ lg.sinks, s.level = convertLevel config.minLevel := by
  rcases setupLogger_cases env pool config with hc | ⟨sinks, hne, hlev, hc⟩
  · rw [hc] at h; simp at h
  · rw [hc, mkFinal_assigned] at h
    injection h with h
    subst h
    exact ⟨rfl, hne, hlev⟩

/-- On the marker-probe failure path (nonempty file path, parent directory
present or created, marker write failing), setupLogger leaves through the
early return: m_logger is not assigned and the thread pool is not touched. -/
theorem setupLogger_markerFail (env : FsEnv) (pool : Option Nat) (config : Config)
    (hp : ¬ config.logFilePath = "")
    (h1 : env.hasParent config.logFilePath = true)
    (h2 : env.createDirOk config.logFilePath = true)
    (h3 : env.markerOk config.logFilePath = false) :
    setupLogger env pool config = ⟨none, pool⟩ := by
  simp [setupLogger, hp, h1, h2, h3]

/-- A call whose per-sink outputs are all empty writes zero bytes. -/
theorem outputBytes_blank (l : List Sink) : outputBytes (l.map fun _ => "") = 0 := by
  induction l with
  | nil => rfl
  | cons a t _ih => simp [outputBytes]

/-- Byte count of a cons of per-sink outputs. -/
theorem outputBytes_cons (x : String) (xs : List String) :
    outputBytes (x :: xs) = x.length + outputBytes xs := by
  simp [outputBytes]

/-- The worker loop commits all pending records after the already committed
ones, preserving FIFO order. -/
theorem commitAll_spec (pending committed : List String) :
    commitAll pending committed = committed ++ pending := by
  induction pending generalizing committed with
  | nil => simp [commitAll]
  | cons r rest ih => simp [commitAll, ih]

/-- Byte count of a constant per-sink output. -/
theorem outputBytes_const (l : List Sink) (f : String) :
    outputBytes (l.map fun _ => f) = l.length * f.length := by
  induction l with
  | nil => simp [outputBytes]
  | cons a t ih =>
    rw [List.map_cons, outputBytes_cons, ih]
    simp [List.length_cons]
    ring

/-! Concrete fixtures used by the claim theorems. -/

/-- An environment in which every filesystem operation succeeds. -/
def allOkEnv : FsEnv := ⟨fun _ => true, fun _ => true, fun _ => true, fun _ => true⟩

/-- An environment in which the parent directory of the log file exists (or is
created without error) but the marker-file write fails: the target directory
is present yet unwritable. -/
def unwritableDirEnv : FsEnv := ⟨fun _ => true, fun _ => true, fun _ => false, fun _ => true⟩

/-- An environment in which creating the parent directory itself throws. -/
def createDirFailEnv : FsEnv := ⟨fun _ => true, fun _ => false, fun _ => true, fun _ => true⟩

/-- A configuration requesting console output plus a file sink. -/
def fileConfig : Config := { defaultConfig with logFilePath := "/ro/app.log" }

/-- A second file configuration, aimed at a different path and level. -/
def fileConfig2 : Config :=
  { defaultConfig with logFilePath := "/other/b.log", minLevel := .DEBUG }

/-- A Logger state holding an active console+file pipeline, built with every
filesystem operation succeeding. -/
def oldSt : LoggerState := (construct allOkEnv none fileConfig).1

/-- A Logger state with an active pipeline built from the default config. -/
def activeSt : LoggerState := (construct allOkEnv none defaultConfig).1

/-- A configuration whose pipeline is built with minimum level ERROR. -/
def errCfg : Config := { defaultConfig with minLevel := .ERROR }

/-- A configuration whose pipeline is built with minimum level WARNING. -/
def wCfg : Config := { defaultConfig with minLevel := .WARNING }

/-- An async configuration with queue capacity zero. -/
def zeroQueueCfg : Config := { defaultConfig with asyncLogging := true, queueSize := 0 }

/-- A first async configuration, queue capacity 4. -/
def asyncCfgA : Config := { defaultConfig with asyncLogging := true, queueSize := 4 }

/-- A second async configuration, queue capacity 100. -/
def asyncCfgB : Config := { defaultConfig with asyncLogging := true, queueSize := 100 }

/-! Claim theorems. -/

/-- C1: evaluation of the code at the failing input.  Constructing a Logger
whose target directory exists but is unwritable (the marker-file write fails)
leaves m_logger null even though console output was requested: the catch
block at Logger.hpp lines 248-258 pushes a console sink into the local vector
but then returns from setupLogger before the logger-creation code at lines
292-328 ever runs, so the locally built sink vector is discarded and no
pipeline exists; every subsequent log call is a silent no-op.  Construction
indeed does not throw, but the resulting pipeline is not console-only — it is
absent, contradicting the claim, the specification, and the code's own
comment at line 251 stating it falls back to console only. -/
theorem construct_markerFail_no_pipeline :
    (construct unwritableDirEnv none fileConfig).1.m_logger = none ∧
    fileConfig.consoleOutput = true ∧
    logCall (construct unwritableDirEnv none fileConfig).1 SpdLevel.err "boom" = [] := by
  decide

/-- C2 counterexample: at a concrete Logger with an active pipeline and a
concrete new configuration, the statement sequence performed by setConfig
contains no flush of the current pipeline at all (hence none before the
rebuild) and no worker stop; the claim fails at this input. -/
theorem setConfig_no_flush_counterexample :
    activeSt.m_logger.isSome = true ∧
    PipelineEvent.flushOld ∉ (setConfigTraced allOkEnv none activeSt fileConfig).2 ∧
    PipelineEvent.stopWorker ∉ (setConfigTraced allOkEnv none activeSt fileConfig).2 ∧
    PipelineEvent.rebuild ∈ (setConfigTraced allOkEnv none activeSt fileConfig).2 := by
  decide

/-- C2 (amended): for every environment, pool state, Logger state and new
configuration, setConfig stores the new configuration and rebuilds the
pipeline directly from it: its action sequence is exactly store-config then
rebuild, with no flush or drain of the current pipeline and no worker stop
(the old pipeline object is simply released on replacement). -/
theorem setConfig_stores_then_rebuilds (env : FsEnv) (pool : Option Nat)
    (st : LoggerState) (config : Config) :
    (setConfigTraced env pool st config).2 = [.storeConfig, .rebuild] ∧
    PipelineEvent.flushOld ∉ (setConfigTraced env pool st config).2 ∧
    PipelineEvent.stopWorker ∉ (setConfigTraced env pool st config).2 ∧
    ((setConfigTraced env pool st config).1).1.m_config = config := by
  have he : (setConfigTraced env pool st config).2 = setConfigEvents := rfl
  refine ⟨rfl, ?_, ?_, ?_⟩
  · rw [he]; decide
  · rw [he]; decide
  · simp [setConfigTraced, setConfig]

/-- C5 counterexample: building with queueSize 0 initializes the async thread
pool with capacity 0, not with the default capacity: the resolved queue
capacity is not always positive and 0 is not replaced by the default. -/
theorem queueSize_zero_counterexample :
    (setupLogger allOkEnv none zeroQueueCfg).pool = some 0 ∧
    ¬ 0 < (0 : Nat) ∧ (0 : Nat) ≠ DEFAULT_QUEUE_SIZE := by
  decide

/-- C5 (amended): configuration handling never hard-fails, and unrecognized
severity values map to INFO through the switch default; but queue capacity is
not normalized: whenever the pipeline is actually built with an uninitialized
pool, the pool is created with exactly the configured queueSize — zero stays
zero. -/
theorem config_resolution (v : Nat) (env : FsEnv) (config : Config)
    (h5 : 5 < v) (ha : config.asyncLogging = true)
    (hb : (setupLogger env none config).assigned.isSome = true) :
    convertLevelRaw v = SpdLevel.info ∧
    (setupLogger env none config).pool = some config.queueSize := by
  constructor
  · unfold convertLevelRaw
    rw [if_neg (by omega), if_neg (by omega), if_neg (by omega), if_neg (by omega),
      if_neg (by omega), if_neg (by omega)]
  · rcases setupLogger_cases env none config with hc | ⟨sinks, _, _, hc⟩
    · rw [hc] at hb; simp at hb
    · rw [hc]; exact mkFinal_pool_async config sinks ha

/-- Witness for config_resolution at a concrete out-of-range severity value
and a concrete async configuration with queueSize 0. -/
theorem config_resolution_witness :
    convertLevelRaw 42 = SpdLevel.info ∧
    (setupLogger allOkEnv none zeroQueueCfg).pool = some zeroQueueCfg.queueSize :=
  config_resolution 42 allOkEnv zeroQueueCfg (by decide) rfl (by decide)

/-- C6 counterexample: construct a first async Logger with queueSize 4, then a
second async Logger with queueSize 100: the process thread pool — and with it
the bounded queue serving the second Logger — still has capacity 4, not the
second Logger's configured 100. -/
theorem second_async_queue_counterexample :
    (construct allOkEnv none asyncCfgA).2 = some 4 ∧
    (construct allOkEnv (construct allOkEnv none asyncCfgA).2 asyncCfgB).2 = some 4 ∧
    asyncCfgB.queueSize = 100 ∧ (4 : Nat) ≠ 100 := by
  decide

/-- C6 (amended): the async queue capacity is the queueSize of the first async
Logger that initialized the process-wide pool: once the pool exists, building
any further Logger leaves its capacity unchanged whatever that Logger's own
queueSize is; only an async build that finds the pool uninitialized sets the
capacity, to its own configured queueSize. -/
theorem thread_pool_first_wins (env : FsEnv) (c : Nat) (config : Config)
    (ha : config.asyncLogging = true)
    (hb : (setupLogger env none config).assigned.isSome = true) :
    (setupLogger env (some c) config).pool = some c ∧
    (setupLogger env none config).pool = some config.queueSize := by
  constructor
  · rcases setupLogger_cases env (some c) config with hc | ⟨sinks, _, _, hc⟩
    · rw [hc]
    · rw [hc]; exact mkFinal_pool_some config c sinks
  · rcases setupLogger_cases env none config with hc | ⟨sinks, _, _, hc⟩
    · rw [hc] at hb; simp at hb
    · rw [hc]; exact mkFinal_pool_async config sinks ha

/-- Witness for thread_pool_first_wins: capacity 4 already installed, second
async configuration requesting 100. -/
theorem thread_pool_first_wins_witness :
    (setupLogger allOkEnv (some 4) asyncCfgB).pool = some 4 ∧
    (setupLogger allOkEnv none asyncCfgB).pool = some asyncCfgB.queueSize :=
  thread_pool_first_wins allOkEnv 4 asyncCfgB rfl (by decide)

/-- C7: after flush returns, the async queue is empty and every record that
was enqueued before the call has been committed to the sinks, in FIFO order
after the records already committed. -/
theorem flush_drains_queue (d : AsyncDispatcher) :
    (AsyncDispatcher.flush d).queue = [] ∧
    (AsyncDispatcher.flush d).committed = d.committed ++ d.queue :=
  ⟨rfl, commitAll_spec d.queue d.committed⟩

/-- C8: the rotation-chain invariant is preserved by any sequence of appends:
at most maxFiles backup files exist besides the active file, and the active
file's size exceeds maxFileSize only when the file holds a single record —
rotation is checked before the write, never mid-write, so the threshold is
never knowingly exceeded by more than that one record. -/
theorem rotation_chain_invariant (w : RotWriter) (recs : List Nat)
    (h : w.chainInv) : (w.appendAll recs).chainInv := by
  induction recs generalizing w with
  | nil => simp [RotWriter.appendAll]; exact h
  | cons r rest ih =>
    have hstep : (w.append r).chainInv := by
      unfold RotWriter.append
      by_cases hc : w.maxFileSize < w.activeSize + r
      · rw [if_pos hc]
        refine ⟨?_, Or.inr (by simp)⟩
        simp [RotWriter.rotate, List.length_take]
      · rw [if_neg hc]
        refine ⟨h.1, Or.inl ?_⟩
        simp [RotWriter.activeSize] at hc ⊢
        omega
    have : (w.appendAll (r :: rest)) = ((w.append r).appendAll rest) := by
      simp [RotWriter.appendAll]
    rw [this]
    exact ih (w.append r) hstep

/-- Witness for rotation_chain_invariant: spec scenario 1 — capacity 100,
retention 2, fifty 10-byte records appended to a fresh writer. -/
theorem rotation_chain_invariant_witness :
    (freshWriter 100 2).chainInv ∧
    ((freshWriter 100 2).appendAll (List.replicate 50 10)).chainInv :=
  ⟨by decide,
   rotation_chain_invariant (freshWriter 100 2) (List.replicate 50 10) (by decide)⟩

/-- C10 counterexample: when the probe fails because the parent directory
cannot be created (create_directories throws), the outer catch at Logger.hpp
lines 273-282 runs instead of the inner one: setConfig does rebuild, replacing
the previously active pipeline with a console-only logger, so the old pipeline
does not remain in use; the claim's directory-cannot-be-created disjunct is
false. -/
theorem setConfig_createDirFail_replaces :
    createDirFailEnv.createDirOk fileConfig2.logFilePath = false ∧
    (setConfig createDirFailEnv none oldSt fileConfig2).1.m_logger ≠ oldSt.m_logger ∧
    (setConfig createDirFailEnv none oldSt fileConfig2).1.m_logger =
      some ⟨[consoleSink .DEBUG], convertLevel .DEBUG, fileConfig2.pattern, false⟩ := by
  decide

/-- C10 (amended): when setConfig runs with a configuration whose marker-file
probe fails (nonempty path, parent directory present or created, marker write
failing), the previously active pipeline is kept unchanged — m_logger and its
sinks are not replaced — while m_config is overwritten with the new
configuration, so the pipeline in use and the stored configuration disagree;
the thread pool is untouched as well. -/
theorem setConfig_markerFail_frame (env : FsEnv) (pool : Option Nat)
    (st : LoggerState) (config : Config)
    (hp : ¬ config.logFilePath = "")
    (h1 : env.hasParent config.logFilePath = true)
    (h2 : env.createDirOk config.logFilePath = true)
    (h3 : env.markerOk config.logFilePath = false) :
    (setConfig env pool st config).1.m_logger = st.m_logger ∧
    (setConfig env pool st config).1.m_config = config ∧
    (setConfig env pool st config).2 = pool := by
  have h := setupLogger_markerFail env pool config hp h1 h2 h3
  simp [setConfig, h]

/-- Witness for setConfig_markerFail_frame: old pipeline built at /ro/app.log,
new configuration aimed at an unwritable /other/b.log. -/
theorem setConfig_markerFail_frame_witness :
    (setConfig unwritableDirEnv none oldSt fileConfig2).1.m_logger = oldSt.m_logger ∧
    (setConfig unwritableDirEnv none oldSt fileConfig2).1.m_config = fileConfig2 ∧
    (setConfig unwritableDirEnv none oldSt fileConfig2).2 = none :=
  setConfig_markerFail_frame unwritableDirEnv none oldSt fileConfig2 (by decide) rfl rfl rfl

/-- Pointwise equal functions on a list give equal maps. -/
theorem map_ext_mem {α β : Type _} (l : List α) (f g : α → β)
    (h : ∀ a ∈ l, f a = g a) : l.map f = l.map g := by
  induction l with
  | nil => rfl
  | cons a t ih =>
    rw [List.map_cons, List.map_cons, h a (List.mem_cons_self a t),
      ih (fun x hx => h x (List.mem_cons_of_mem a hx))]

/-- A formatted record is one byte longer than its message, hence nonempty. -/
theorem formatRecord_length (msg : String) : (formatRecord msg).length = msg.length + 1 := by
  rw [formatRecord, String.length_append]
  rfl

/-- C3 counterexample: build the pipeline at minimum level ERROR, lower the
threshold with setLogLevel(TRACE), then log at INFO: although INFO is at or
above the new threshold TRACE, zero bytes are produced, because setLogLevel
updated only the logger object's threshold while the sink, built at ERROR,
still filters the record out — refuting the claim's "regardless of the
minimum level the pipeline was built with". -/
theorem setLogLevel_lower_counterexample :
    LogLevel.TRACE.toNat ≤ LogLevel.INFO.toNat ∧
    (construct allOkEnv none errCfg).1.m_logger.isSome = true ∧
    outputBytes (logCall (setLogLevel (construct allOkEnv none errCfg).1 .TRACE)
      (convertLevel .INFO) "x") = 0 := by
  decide

/-- C3 (amended): for a Logger whose pipeline the constructor built from
config, after setLogLevel(L) a record at severity s produces output if and
only if s is at or above L AND at or above the minimum level the pipeline was
built with: setLogLevel changes the logger-object threshold but leaves each
sink's threshold at the build-time minimum level.  In particular a call with
severity below L still produces nothing. -/
theorem setLogLevel_effective_threshold (env : FsEnv) (pool : Option Nat)
    (config : Config) (lg : SpdLogger) (L s : LogLevel) (msg : String)
    (h : (construct env pool config).1.m_logger = some lg) :
    (0 < outputBytes (logCall (setLogLevel (construct env pool config).1 L)
        (convertLevel s) msg) ↔
      L.toNat ≤ s.toNat ∧ config.minLevel.toNat ≤ s.toNat) := by
  have hm : (setupLogger env pool config).assigned = some lg := by
    simpa [construct] using h
  obtain ⟨hlev, hne, hsl⟩ := setupLogger_assigned_shape env pool config lg hm
  have hset : setLogLevel (construct env pool config).1 L =
      ⟨some { lg with level := convertLevel L }, { config with minLevel := L }⟩ := by
    simp [setLogLevel, construct, hm]
  rw [hset]
  by_cases hL : L.toNat ≤ s.toNat
  · have hgate : ({ lg with level := convertLevel L } : SpdLogger).shouldLog
        (convertLevel s) = true := by
      simp [SpdLogger.shouldLog]
      exact (convertLevel_le_iff L s).2 hL
    by_cases hM : config.minLevel.toNat ≤ s.toNat
    · have hmap : lg.sinks.map (fun sk => sk.writeBytes (convertLevel s) (formatRecord msg)) =
          lg.sinks.map (fun _ => formatRecord msg) := by
        apply map_ext_mem
        intro sk hsk
        have hskl : sk.shouldLog (convertLevel s) = true := by
          simp [Sink.shouldLog, hsl sk hsk]
          exact (convertLevel_le_iff config.minLevel s).2 hM
        simp [Sink.writeBytes, hskl]
      have h1 : 0 < lg.sinks.length := List.length_pos.mpr hne
      have h2 : 0 < (formatRecord msg).length := by rw [formatRecord_length]; omega
      simp only [logCall, SpdLogger.log, hgate, if_true]
      rw [hmap, outputBytes_const]
      simp [hL, hM]
      exact ⟨h1, h2⟩
    · have hmap : lg.sinks.map (fun sk => sk.writeBytes (convertLevel s) (formatRecord msg)) =
          lg.sinks.map (fun _ => "") := by
        apply map_ext_mem
        intro sk hsk
        have hskl : sk.shouldLog (convertLevel s) = false := by
          simp [Sink.shouldLog, hsl sk hsk]
          have hnc : ¬ (convertLevel config.minLevel).toNat ≤ (convertLevel s).toNat :=
            fun hc => hM ((convertLevel_le_iff config.minLevel s).1 hc)
          omega
        simp [Sink.writeBytes, hskl]
      simp only [logCall, SpdLogger.log, hgate, if_true]
      rw [hmap, outputBytes_blank]
      simp [hM]
  · have hgate : ({ lg with level := convertLevel L } : SpdLogger).shouldLog
        (convertLevel s) = false := by
      simp [SpdLogger.shouldLog]
      have hnc : ¬ (convertLevel L).toNat ≤ (convertLevel s).toNat :=
        fun hc => hL ((convertLevel_le_iff L s).1 hc)
      omega
    simp only [logCall, SpdLogger.log, hgate]
    rw [if_neg (by simp), outputBytes_blank]
    simp [hL]

/-- Witness for setLogLevel_effective_threshold: pipeline built at WARNING,
level set to ERROR, record logged at FATAL. -/
theorem setLogLevel_effective_threshold_witness :
    (0 < outputBytes (logCall (setLogLevel (construct allOkEnv none wCfg).1 .ERROR)
        (convertLevel .FATAL) "m") ↔
      LogLevel.ERROR.toNat ≤ LogLevel.FATAL.toNat ∧
        wCfg.minLevel.toNat ≤ LogLevel.FATAL.toNat) :=
  setLogLevel_effective_threshold allOkEnv none wCfg
    ⟨[consoleSink .WARNING], convertLevel .WARNING, wCfg.pattern, false⟩
    .ERROR .FATAL "m" (by decide)

/-- C4: at the sink-dispatch step a record is forwarded to a sink if and only
if its severity is at or above the sink's threshold, under the fixed order
TRACE < DEBUG < INFO < WARNING < ERROR < FATAL (both compared through
convertLevel, which preserves and reflects that order); a record with
severity below the threshold writes zero bytes to that sink. -/
theorem sink_forwarding_iff (s : Sink) (t l : LogLevel) (msg : String)
    (h : s.level = convertLevel t) :
    ((0 < (s.writeBytes (convertLevel l) (formatRecord msg)).length) ↔
      t.toNat ≤ l.toNat) ∧
    (l.toNat < t.toNat → s.writeBytes (convertLevel l) (formatRecord msg) = "") := by
  by_cases hle : t.toNat ≤ l.toNat
  · have hs : s.shouldLog (convertLevel l) = true := by
      simp [Sink.shouldLog, h]
      exact (convertLevel_le_iff t l).2 hle
    refine ⟨?_, fun hlt => absurd hle (by omega)⟩
    simp [Sink.writeBytes, hs, hle]
    rw [formatRecord_length]
    omega
  · have hs : s.shouldLog (convertLevel l) = false := by
      simp [Sink.shouldLog, h]
      have hnc : ¬ (convertLevel t).toNat ≤ (convertLevel l).toNat :=
        fun hc => hle ((convertLevel_le_iff t l).1 hc)
      omega
    refine ⟨?_, fun _ => by simp [Sink.writeBytes, hs]⟩
    simp [Sink.writeBytes, hs, hle]

/-- Witness for sink_forwarding_iff: a console sink with threshold INFO and a
record at ERROR. -/
theorem sink_forwarding_iff_witness :
    ((0 < ((consoleSink .INFO).writeBytes (convertLevel .ERROR)
        (formatRecord "x")).length) ↔
      LogLevel.INFO.toNat ≤ LogLevel.ERROR.toNat) ∧
    (LogLevel.ERROR.toNat < LogLevel.INFO.toNat →
      (consoleSink .INFO).writeBytes (convertLevel .ERROR) (formatRecord "x") = "") :=
  sink_forwarding_iff (consoleSink .INFO) .INFO .ERROR "x" rfl

/-- C9: each of the six level methods returns normally for every fault
pattern, Logger state and message — a sink exception is caught by the spdlog
logger and fed to the installed swallow-all error handler — and with no
pipeline configured each method is a silent no-op: the state is returned
unchanged and nothing is written. -/
theorem level_methods_never_throw (fault : Sink → Bool) (st : LoggerState)
    (msg : String) :
    (∃ r, info fault st msg = .ok r) ∧ (∃ r, warning fault st msg = .ok r) ∧
    (∃ r, error fault st msg = .ok r) ∧ (∃ r, debug fault st msg = .ok r) ∧
    (∃ r, trace fault st msg = .ok r) ∧ (∃ r, fatal fault st msg = .ok r) ∧
    (st.m_logger = none →
      info fault st msg = .ok (st, []) ∧ warning fault st msg = .ok (st, []) ∧
      error fault st msg = .ok (st, []) ∧ debug fault st msg = .ok (st, []) ∧
      trace fault st msg = .ok (st, []) ∧ fatal fault st msg = .ok (st, [])) := by
  cases hm : st.m_logger <;>
    simp [info, warning, error, debug, trace, fatal, levelCall, hm]

/-- Witness for level_methods_never_throw: a Logger with no pipeline, a fault
pattern making every sink throw, and a concrete message. -/
theorem level_methods_never_throw_witness :
    info (fun _ => true) ⟨none, defaultConfig⟩ "x" = .ok (⟨none, defaultConfig⟩, []) ∧
    fatal (fun _ => true) ⟨none, defaultConfig⟩ "x" = .ok (⟨none, defaultConfig⟩, []) :=
  ⟨((level_methods_never_throw (fun _ => true) ⟨none, defaultConfig⟩ "x").2.2.2.2.2.2
      rfl).1,
   ((level_methods_never_throw (fun _ => true) ⟨none, defaultConfig⟩ "x").2.2.2.2.2.2
      rfl).2.2.2.2.2⟩

end FreshLogger
